import Mathlib

/-!
# Carousel controller and anchor scroller of `script.js`

A shallow embedding of `src/script.js`: the carousel (lines 1-35) in the
namespace `Carousel`, the click listener of the in-page links (lines 37-45) in
the namespace `AnchorScroller`.

* The document is a `Page`: whether `document.querySelector(".carousel")` found
  an element, and the `offsetWidth` of every `.event-card` element in document
  order (`offsetWidth` is a non-negative integer number of pixels).
* The mutable state is a `State`: the module variable `currentIndex` and the
  inline `style.transform` of the container (`none` while the script has not
  written it).
* JavaScript numbers are embedded as mathematical integers (`Int`); every value
  the script computes is an integer, and the embedding is exact inside the safe
  integer range of a double.
* A JavaScript function is a map from the state to an `Outcome`: the state in
  which the call ends and the exception that escaped, if any.  Assignments made
  before a `throw` stay in the end state, as they do for a module variable.
* The click listener sees the document through `document.querySelector`, which
  the browser provides; it is a parameter (`Dom.querySelector`). What the
  listener asks of the browser (`preventDefault`, `scrollIntoView`) is recorded
  in the order of the calls.
-/

namespace Carousel

/-- The document the script is loaded into. -/
structure Page where
  /-- Whether `document.querySelector(".carousel")` is an element (not `null`). -/
  hasCarousel : Bool
  /-- The `offsetWidth` of each element of `document.querySelectorAll(".event-card")`. -/
  cards : List Nat
  deriving DecidableEq

/-- The mutable state of the script. -/
structure State where
  /-- The module variable `currentIndex`. -/
  currentIndex : Int
  /-- The value of `carousel.style.transform`; `none` until the script writes it. -/
  transform : Option String
  deriving DecidableEq

/-- Exceptions the script can raise. -/
inductive JsError where
  /-- Reading a property of `undefined` or `null`. -/
  | typeError
  /-- A selector string `querySelector` cannot parse. -/
  | syntaxError
  deriving DecidableEq

/-- The end of a call: the state it leaves and the exception that escaped. -/
structure Outcome where
  state : State
  error : Option JsError
  deriving DecidableEq

/-- Line 5: `let currentIndex = 0;`, nothing written to the transform yet. -/
def initial : State := { currentIndex := 0, transform := none }

/-- Line 6: `const visibleCards = 3;`. -/
def visibleCards : Int := 3

/-- The string a template literal substitutes for an integer number. -/
def numberToString : Int → String
  | Int.ofNat m => Nat.repr m
  | Int.negSucc m => "-" ++ Nat.repr (m + 1)

/-- The template literal of line 24 for the product `px`. -/
def translateX (px : Int) : String :=
  "translateX(-" ++ numberToString px ++ "px)"

/-- Lines 22-25, `updateCarousel`. `cards[0]` is `undefined` on an empty
collection, so `cards[0].offsetWidth` throws; `carousel.style` throws when the
container is `null`. -/
def updateCarousel (p : Page) (s : State) : Outcome :=
  match p.cards.head? with
  | none => { state := s, error := some JsError.typeError }
  | some offsetWidth =>
    let cardWidth : Int := (offsetWidth : Int) + 20
    if p.hasCarousel then
      { state := { s with transform := some (translateX (s.currentIndex * cardWidth)) },
        error := none }
    else
      { state := s, error := some JsError.typeError }

/-- Lines 8-13, `nextSlide`. -/
def nextSlide (p : Page) (s : State) : Outcome :=
  if s.currentIndex < (p.cards.length : Int) - visibleCards then
    updateCarousel p { s with currentIndex := s.currentIndex + 1 }
  else
    { state := s, error := none }

/-- Lines 15-20, `prevSlide`. -/
def prevSlide (p : Page) (s : State) : Outcome :=
  if s.currentIndex > 0 then
    updateCarousel p { s with currentIndex := s.currentIndex - 1 }
  else
    { state := s, error := none }

/-- Lines 28-35, the callback given to `setInterval`. -/
def tick (p : Page) (s : State) : Outcome :=
  if s.currentIndex < (p.cards.length : Int) - visibleCards then
    nextSlide p s
  else
    updateCarousel p { s with currentIndex := 0 }

/-- The three entry points the page calls into. -/
inductive Op where
  | next
  | prev
  | timer
  deriving DecidableEq

/-- One call of an entry point. -/
def step (p : Page) (s : State) : Op → Outcome
  | Op.next => nextSlide p s
  | Op.prev => prevSlide p s
  | Op.timer => tick p s

/-- A sequence of calls, each starting in the state the previous one left. An
exception ends only the call that raised it. -/
def run (p : Page) (s : State) (ops : List Op) : State :=
  ops.foldl (fun st op => (step p st op).state) s

/-- The data-model invariant on the index for a page of `n` cards. -/
def IndexInBounds (p : Page) (s : State) : Prop :=
  0 ≤ s.currentIndex ∧ s.currentIndex ≤ max 0 ((p.cards.length : Int) - visibleCards)

instance (p : Page) (s : State) : Decidable (IndexInBounds p s) := by
  unfold IndexInBounds; infer_instance

/-- The transform agrees with the index: nothing written yet and the index is
`0`, or the last string written is the one for `currentIndex * (w + 20)`. -/
def OffsetConsistent (w : Nat) (s : State) : Prop :=
  match s.transform with
  | none => s.currentIndex = 0
  | some t => t = translateX (s.currentIndex * ((w : Int) + 20))

end Carousel

namespace AnchorScroller

/-- A node of the document, named by its position in document order. -/
abbrev Element := Nat

/-- What `document.querySelector(selector)` does: it throws a `SyntaxError` on
a string that is no selector, returns `null` when no element matches, and the
first matching element otherwise. -/
inductive QueryResult where
  | syntaxError
  | null
  | element (e : Element)
  deriving DecidableEq

/-- The document as the click listener uses it. -/
structure Dom where
  /-- The browser's `document.querySelector`. -/
  querySelector : String → QueryResult

/-- A call the listener makes on the event or on an element. -/
inductive Effect where
  /-- The call `e.preventDefault()`. -/
  | preventDefault
  /-- The call `target.scrollIntoView` with the option `behavior`. -/
  | scrollIntoView (target : Element) (behavior : String)
  deriving DecidableEq

/-- The end of one click: the carousel state, the calls made in order, and the
exception that escaped the listener. -/
structure ClickOutcome where
  carousel : Carousel.State
  effects : List Effect
  error : Option Carousel.JsError
  deriving DecidableEq

/-- Lines 39-44, the click listener of a link whose `href` attribute is `href`.
Line 40 runs first; line 41 looks the attribute up as a selector and calls
`scrollIntoView` on the result, which throws a `TypeError` on `null`. The
listener reads and writes no variable of the carousel. -/
def onAnchorClick (d : Dom) (href : String) (s : Carousel.State) : ClickOutcome :=
  match d.querySelector href with
  | QueryResult.syntaxError =>
    { carousel := s, effects := [Effect.preventDefault],
      error := some Carousel.JsError.syntaxError }
  | QueryResult.null =>
    { carousel := s, effects := [Effect.preventDefault],
      error := some Carousel.JsError.typeError }
  | QueryResult.element target =>
    { carousel := s,
      effects := [Effect.preventDefault, Effect.scrollIntoView target "smooth"],
      error := none }

/-- An example document: its only elements with an `id` carry the listed ids,
in document order, and only selectors of the form `#id` are asked of it. -/
def domOfIds (ids : List String) : Dom where
  querySelector sel :=
    if sel = "#" then QueryResult.syntaxError
    else match ids.findIdx? (fun i => "#" ++ i = sel) with
      | some k => QueryResult.element k
      | none => QueryResult.null

end AnchorScroller

namespace Carousel

/-! ## Auxiliary lemmas -/

theorem updateCarousel_currentIndex (p : Page) (s : State) :
    (updateCarousel p s).state.currentIndex = s.currentIndex := by
  unfold updateCarousel
  cases p.cards.head? with
  | none => rfl
  | some w => by_cases hc : p.hasCarousel = true <;> simp [hc]

theorem updateCarousel_of_head (p : Page) (s : State) (w : Nat)
    (hc : p.hasCarousel = true) (hw : p.cards.head? = some w) :
    updateCarousel p s =
      { state := { currentIndex := s.currentIndex,
                   transform := some (translateX (s.currentIndex * ((w : Int) + 20))) },
        error := none } := by
  simp [updateCarousel, hw, hc]

theorem updateCarousel_of_empty (p : Page) (s : State) (he : p.cards = []) :
    updateCarousel p s = { state := s, error := some JsError.typeError } := by
  simp [updateCarousel, he]

theorem head?_of_length_pos (p : Page) (h : 0 < p.cards.length) :
    ∃ w, p.cards.head? = some w := by
  cases hcs : p.cards with
  | nil => simp [hcs] at h
  | cons w rest => exact ⟨w, rfl⟩

theorem run_nil (p : Page) (s : State) : run p s [] = s := rfl

theorem run_cons (p : Page) (s : State) (op : Op) (ops : List Op) :
    run p s (op :: ops) = run p (step p s op).state ops := rfl

theorem run_append (p : Page) (s : State) (xs ys : List Op) :
    run p s (xs ++ ys) = run p (run p s xs) ys := by
  simp [run, List.foldl_append]

theorem run_replicate_succ (p : Page) (s : State) (op : Op) (k : Nat) :
    run p s (List.replicate (k + 1) op) =
      (step p (run p s (List.replicate k op)) op).state := by
  rw [List.replicate_succ', run_append]
  rfl

theorem nextSlide_currentIndex (p : Page) (s : State) :
    (nextSlide p s).state.currentIndex =
      if s.currentIndex < (p.cards.length : Int) - 3 then s.currentIndex + 1
      else s.currentIndex := by
  unfold nextSlide visibleCards
  split
  · simp [updateCarousel_currentIndex]
  · rfl

theorem prevSlide_currentIndex (p : Page) (s : State) :
    (prevSlide p s).state.currentIndex =
      if s.currentIndex > 0 then s.currentIndex - 1 else s.currentIndex := by
  unfold prevSlide
  split
  · simp [updateCarousel_currentIndex]
  · rfl

theorem tick_currentIndex (p : Page) (s : State) :
    (tick p s).state.currentIndex =
      if s.currentIndex < (p.cards.length : Int) - 3 then s.currentIndex + 1 else 0 := by
  unfold tick visibleCards
  split
  · rename_i h
    rw [nextSlide_currentIndex, if_pos h]
  · simp [updateCarousel_currentIndex]

theorem step_indexInBounds (p : Page) (s : State) (op : Op) (h : IndexInBounds p s) :
    IndexInBounds p (step p s op).state := by
  unfold IndexInBounds visibleCards at *
  cases op with
  | next =>
    simp only [step, nextSlide_currentIndex]
    split <;> omega
  | prev =>
    simp only [step, prevSlide_currentIndex]
    split <;> omega
  | timer =>
    simp only [step, tick_currentIndex]
    split <;> omega

theorem run_indexInBounds (p : Page) (ops : List Op) :
    ∀ s : State, IndexInBounds p s → IndexInBounds p (run p s ops) := by
  induction ops with
  | nil => intro s h; exact h
  | cons op ops ih =>
    intro s h
    rw [run_cons]
    exact ih _ (step_indexInBounds p s op h)

theorem initial_indexInBounds (p : Page) : IndexInBounds p initial := by
  unfold IndexInBounds initial visibleCards
  simp

theorem numberToString_natCast (m : Nat) : numberToString (m : Int) = Nat.repr m := rfl

theorem translateX_zero : translateX 0 = "translateX(-0px)" := by decide

theorem translateX_of_nonneg (i : Int) (w : Nat) (hi : 0 ≤ i) :
    translateX (i * ((w : Int) + 20)) =
      "translateX(-" ++ Nat.repr (i.toNat * (w + 20)) ++ "px)" := by
  obtain ⟨m, rfl⟩ := Int.eq_ofNat_of_zero_le hi
  have h : (m : Int) * ((w : Int) + 20) = ((m * (w + 20) : Nat) : Int) := by
    push_cast
    ring
  rw [h]
  rfl

theorem step_offsetConsistent (p : Page) (w : Nat) (s : State) (op : Op)
    (hc : p.hasCarousel = true) (hw : p.cards.head? = some w)
    (h : OffsetConsistent w s) : OffsetConsistent w (step p s op).state := by
  cases op with
  | next =>
    simp only [step, nextSlide]
    split
    · rw [updateCarousel_of_head p _ w hc hw]
      simp [OffsetConsistent]
    · exact h
  | prev =>
    simp only [step, prevSlide]
    split
    · rw [updateCarousel_of_head p _ w hc hw]
      simp [OffsetConsistent]
    · exact h
  | timer =>
    simp only [step, tick, nextSlide]
    split
    · rw [updateCarousel_of_head p _ w hc hw]
      simp [OffsetConsistent]
    · rw [updateCarousel_of_head p _ w hc hw]
      simp [OffsetConsistent]

theorem run_offsetConsistent (p : Page) (w : Nat) (hc : p.hasCarousel = true)
    (hw : p.cards.head? = some w) (ops : List Op) :
    ∀ s : State, OffsetConsistent w s → OffsetConsistent w (run p s ops) := by
  induction ops with
  | nil => intro s h; exact h
  | cons op ops ih =>
    intro s h
    rw [run_cons]
    exact ih _ (step_offsetConsistent p w s op hc hw h)

theorem nextSlide_of_lt (p : Page) (s : State) (w : Nat) (hc : p.hasCarousel = true)
    (hw : p.cards.head? = some w) (h : s.currentIndex < (p.cards.length : Int) - 3) :
    nextSlide p s =
      { state := { currentIndex := s.currentIndex + 1,
                   transform := some (translateX ((s.currentIndex + 1) * ((w : Int) + 20))) },
        error := none } := by
  have h' : s.currentIndex < (p.cards.length : Int) - visibleCards := h
  rw [nextSlide, if_pos h', updateCarousel_of_head p _ w hc hw]

theorem nextSlide_of_not_lt (p : Page) (s : State)
    (h : ¬ s.currentIndex < (p.cards.length : Int) - 3) :
    nextSlide p s = { state := s, error := none } := by
  have h' : ¬ s.currentIndex < (p.cards.length : Int) - visibleCards := h
  rw [nextSlide, if_neg h']

theorem prevSlide_of_pos (p : Page) (s : State) (w : Nat) (hc : p.hasCarousel = true)
    (hw : p.cards.head? = some w) (h : 0 < s.currentIndex) :
    prevSlide p s =
      { state := { currentIndex := s.currentIndex - 1,
                   transform := some (translateX ((s.currentIndex - 1) * ((w : Int) + 20))) },
        error := none } := by
  have h' : s.currentIndex > 0 := h
  rw [prevSlide, if_pos h', updateCarousel_of_head p _ w hc hw]

theorem prevSlide_of_not_pos (p : Page) (s : State) (h : ¬ 0 < s.currentIndex) :
    prevSlide p s = { state := s, error := none } := by
  have h' : ¬ s.currentIndex > 0 := h
  rw [prevSlide, if_neg h']

theorem tick_of_not_lt (p : Page) (s : State) (w : Nat) (hc : p.hasCarousel = true)
    (hw : p.cards.head? = some w) (h : ¬ s.currentIndex < (p.cards.length : Int) - 3) :
    tick p s =
      { state := { currentIndex := 0, transform := some "translateX(-0px)" },
        error := none } := by
  have h' : ¬ s.currentIndex < (p.cards.length : Int) - visibleCards := h
  rw [tick, if_neg h', updateCarousel_of_head p _ w hc hw]
  simp [translateX_zero]

theorem succ_mod_cycle (k m : Nat) (hm : 0 < m) :
    (k + 1) % m = if k % m + 1 < m then k % m + 1 else 0 := by
  have hlt : k % m < m := Nat.mod_lt k hm
  rw [Nat.add_mod]
  split
  · rename_i h
    by_cases h1 : m = 1
    · omega
    · have : 1 % m = 1 := Nat.mod_eq_of_lt (by omega)
      rw [this, Nat.mod_eq_of_lt h]
  · rename_i h
    by_cases h1 : m = 1
    · subst h1
      omega
    · have : 1 % m = 1 := Nat.mod_eq_of_lt (by omega)
      have hk : k % m + 1 = m := by omega
      rw [this, hk, Nat.mod_self]

theorem run_timer_currentIndex (p : Page) (hn : 3 ≤ p.cards.length) (k : Nat) :
    (run p initial (List.replicate k Op.timer)).currentIndex =
      ((k % (p.cards.length - 2) : Nat) : Int) := by
  induction k with
  | zero => simp [run_nil, initial]
  | succ k ih =>
    rw [run_replicate_succ]
    simp only [step]
    rw [tick_currentIndex, ih, succ_mod_cycle k (p.cards.length - 2) (by omega)]
    have hlt : k % (p.cards.length - 2) < p.cards.length - 2 := Nat.mod_lt k (by omega)
    split <;> split <;> omega

theorem step_writes_of_index_change (p : Page) (w : Nat) (s : State) (op : Op)
    (hc : p.hasCarousel = true) (hw : p.cards.head? = some w)
    (h : (step p s op).state.currentIndex ≠ s.currentIndex) :
    (step p s op).state.transform =
      some (translateX ((step p s op).state.currentIndex * ((w : Int) + 20))) := by
  cases op with
  | next =>
    simp only [step, nextSlide] at h ⊢
    split
    · rw [updateCarousel_of_head p _ w hc hw]
    · rename_i hg
      rw [if_neg hg] at h
      exact absurd rfl h
  | prev =>
    simp only [step, prevSlide] at h ⊢
    split
    · rw [updateCarousel_of_head p _ w hc hw]
    · rename_i hg
      rw [if_neg hg] at h
      exact absurd rfl h
  | timer =>
    simp only [step, tick, nextSlide] at h ⊢
    split
    · rw [updateCarousel_of_head p _ w hc hw]
    · rw [updateCarousel_of_head p _ w hc hw]

theorem prevSlide_nextSlide_roundtrip (p : Page) (w : Nat) (s : State)
    (hc : p.hasCarousel = true) (hw : p.cards.head? = some w) (h0 : 0 ≤ s.currentIndex)
    (hlt : s.currentIndex < (p.cards.length : Int) - 3) :
    (nextSlide p s).error = none ∧
    prevSlide p (nextSlide p s).state =
      { state := { currentIndex := s.currentIndex,
                   transform := some ("translateX(-" ++
                     Nat.repr (s.currentIndex.toNat * (w + 20)) ++ "px)") },
        error := none } := by
  rw [nextSlide_of_lt p s w hc hw hlt]
  refine ⟨rfl, ?_⟩
  rw [prevSlide_of_pos p _ w hc hw (by simp only; omega)]
  simp only [add_sub_cancel_right]
  rw [translateX_of_nonneg _ _ h0]

theorem nextSlide_prevSlide_roundtrip (p : Page) (w : Nat) (s : State)
    (hc : p.hasCarousel = true) (hw : p.cards.head? = some w)
    (hpos : 0 < s.currentIndex) (hle : s.currentIndex ≤ (p.cards.length : Int) - 3) :
    (prevSlide p s).error = none ∧
    nextSlide p (prevSlide p s).state =
      { state := { currentIndex := s.currentIndex,
                   transform := some ("translateX(-" ++
                     Nat.repr (s.currentIndex.toNat * (w + 20)) ++ "px)") },
        error := none } := by
  rw [prevSlide_of_pos p s w hc hw hpos]
  refine ⟨rfl, ?_⟩
  rw [nextSlide_of_lt p _ w hc hw (by simp only; omega)]
  simp only [sub_add_cancel]
  rw [translateX_of_nonneg _ _ (le_of_lt hpos)]

/-! ## The index invariant -/

/-- C1: on a page with any number `n` of cards, after any finite sequence of
`nextSlide`, `prevSlide` and timer calls from the initial state the index
satisfies `0 ≤ currentIndex ≤ max 0 (n - 3)`, and `currentIndex ≤ n - 3` when
`n ≥ 3`. Every prefix of a sequence is a sequence, so this is the state after
each call. -/
theorem index_bound_invariant (p : Page) (ops : List Op) :
    0 ≤ (run p initial ops).currentIndex ∧
    (run p initial ops).currentIndex ≤ max 0 ((p.cards.length : Int) - 3) ∧
    (3 ≤ p.cards.length → (run p initial ops).currentIndex ≤ (p.cards.length : Int) - 3) := by
  have h := run_indexInBounds p ops initial (initial_indexInBounds p)
  unfold IndexInBounds visibleCards at h
  refine ⟨h.1, h.2, fun hn => ?_⟩
  have := h.2
  omega

theorem index_bound_invariant_witness :
    (3 ≤ (List.replicate 7 100).length →
      (run ⟨true, List.replicate 7 100⟩ initial
        [Op.next, Op.timer, Op.timer, Op.next, Op.next, Op.prev]).currentIndex
        ≤ ((List.replicate 7 100).length : Int) - 3) ∧
    3 ≤ (List.replicate 7 100).length :=
  ⟨(index_bound_invariant ⟨true, List.replicate 7 100⟩
      [Op.next, Op.timer, Op.timer, Op.next, Op.next, Op.prev]).2.2, by decide⟩


/-! ## Rendering -/

/-- C2: on a page with at least one card, first-card width `w` and a
container, in every state reached from the initial state by `nextSlide`,
`prevSlide` and timer calls the index is not negative and the offset written
last is `currentIndex * (w + 20)`: the transform is the string
`"translateX(-" ++ decimal (currentIndex * (w + 20)) ++ "px)"`, or nothing has
been written yet and the index is `0` (offset `0`). A further call that changes
the index writes the string for the new index. -/
theorem offset_consistency (p : Page) (w : Nat) (rest : List Nat)
    (hc : p.hasCarousel = true) (hw : p.cards = w :: rest) (ops : List Op) :
    0 ≤ (run p initial ops).currentIndex ∧
    (((run p initial ops).transform = none ∧ (run p initial ops).currentIndex = 0) ∨
      (run p initial ops).transform =
        some ("translateX(-" ++
          Nat.repr ((run p initial ops).currentIndex.toNat * (w + 20)) ++ "px)")) ∧
    (∀ op : Op,
      (step p (run p initial ops) op).state.currentIndex ≠ (run p initial ops).currentIndex →
      (step p (run p initial ops) op).state.transform =
        some ("translateX(-" ++
          Nat.repr ((step p (run p initial ops) op).state.currentIndex.toNat * (w + 20)) ++
          "px)")) := by
  have hh : p.cards.head? = some w := by rw [hw]; rfl
  have hb := run_indexInBounds p ops initial (initial_indexInBounds p)
  have hcons := run_offsetConsistent p w hc hh ops initial rfl
  have written : ∀ i : Int, 0 ≤ i →
      translateX (i * ((w : Int) + 20)) =
        "translateX(-" ++ Nat.repr (i.toNat * (w + 20)) ++ "px)" := by
    intro i hi
    obtain ⟨m, rfl⟩ := Int.eq_ofNat_of_zero_le hi
    have hm : (m : Int) * ((w : Int) + 20) = ((m * (w + 20) : Nat) : Int) := by
      push_cast
      ring
    rw [hm]
    simp only [translateX, numberToString_natCast, Int.toNat_ofNat]
  refine ⟨hb.1, ?_, fun op hne => ?_⟩
  · unfold OffsetConsistent at hcons
    cases ht : (run p initial ops).transform with
    | none =>
      rw [ht] at hcons
      exact Or.inl ⟨rfl, hcons⟩
    | some t =>
      rw [ht] at hcons
      right
      rw [hcons, written _ hb.1]
  · have hb2 := step_indexInBounds p (run p initial ops) op hb
    rw [step_writes_of_index_change p w _ op hc hh hne, written _ hb2.1]

theorem offset_consistency_witness :
    (run ⟨true, [200, 200, 200, 200, 200]⟩ initial [Op.timer, Op.next, Op.next]).transform =
      some "translateX(-440px)" ∧
    run ⟨true, [200, 200, 200, 200, 200]⟩ initial [Op.timer, Op.next, Op.next] =
      { currentIndex := 2, transform := some "translateX(-440px)" } :=
  ⟨(offset_consistency ⟨true, [200, 200, 200, 200, 200]⟩ 200 [200, 200, 200, 200] rfl rfl
      [Op.timer, Op.next, Op.next]).2.1.resolve_left (by decide), by decide⟩

/-- C3: with a container and a non-empty card collection whose first card has
width `w`, `updateCarousel` at an index `i ≥ 0` writes exactly
`"translateX(-" ++ decimal (i * (w + 20)) ++ "px)"` to the transform, keeps
`currentIndex` and raises nothing. -/
theorem updateCarousel_output (p : Page) (w : Nat) (rest : List Nat) (s : State)
    (hc : p.hasCarousel = true) (hw : p.cards = w :: rest) (hi : 0 ≤ s.currentIndex) :
    updateCarousel p s =
      { state := { currentIndex := s.currentIndex,
                   transform := some ("translateX(-" ++
                     Nat.repr (s.currentIndex.toNat * (w + 20)) ++ "px)") },
        error := none } := by
  have hh : p.cards.head? = some w := by rw [hw]; rfl
  rw [updateCarousel_of_head p s w hc hh, translateX_of_nonneg _ _ hi]

theorem updateCarousel_output_witness :
    updateCarousel ⟨true, [200, 180]⟩ ⟨2, none⟩ =
      { state := { currentIndex := 2, transform := some "translateX(-440px)" },
        error := none } :=
  updateCarousel_output ⟨true, [200, 180]⟩ 200 [180] ⟨2, none⟩ rfl rfl (by decide)

/-! ## The operations at and inside the bounds -/

/-- C4: with a container and `n ≥ 3` cards, a timer tick at
`currentIndex = n - 3` sets the index to `0` and writes `"translateX(-0px)"`,
while `nextSlide` in that state changes nothing; for `n ≥ 4` the two end states
differ. -/
theorem tick_wraps_nextSlide_clamps (p : Page) (s : State)
    (hc : p.hasCarousel = true) (hn : 3 ≤ p.cards.length)
    (hi : s.currentIndex = (p.cards.length : Int) - 3) :
    tick p s =
      { state := { currentIndex := 0, transform := some "translateX(-0px)" },
        error := none } ∧
    nextSlide p s = { state := s, error := none } ∧
    (4 ≤ p.cards.length → (tick p s).state ≠ (nextSlide p s).state) := by
  obtain ⟨w, hw⟩ := head?_of_length_pos p (by omega)
  have hlt : ¬ s.currentIndex < (p.cards.length : Int) - 3 := by omega
  have ht := tick_of_not_lt p s w hc hw hlt
  have hx := nextSlide_of_not_lt p s hlt
  refine ⟨ht, hx, fun h4 heq => ?_⟩
  rw [ht, hx] at heq
  have h0 : (0 : Int) = s.currentIndex := congrArg State.currentIndex heq
  omega

theorem tick_wraps_nextSlide_clamps_witness :
    tick ⟨true, List.replicate 7 100⟩ ⟨4, some "translateX(-480px)"⟩ =
      { state := { currentIndex := 0, transform := some "translateX(-0px)" },
        error := none } ∧
    nextSlide ⟨true, List.replicate 7 100⟩ ⟨4, some "translateX(-480px)"⟩ =
      { state := ⟨4, some "translateX(-480px)"⟩, error := none } ∧
    (4 ≤ (List.replicate 7 100).length →
      (tick ⟨true, List.replicate 7 100⟩ ⟨4, some "translateX(-480px)"⟩).state ≠
        (nextSlide ⟨true, List.replicate 7 100⟩ ⟨4, some "translateX(-480px)"⟩).state) :=
  tick_wraps_nextSlide_clamps ⟨true, List.replicate 7 100⟩ ⟨4, some "translateX(-480px)"⟩
    rfl (by decide) (by decide)

/-- C5: `nextSlide` is a saturating increment. With a container, in a state
with index `0 ≤ i < n - 3` it ends with index `i + 1` and the transform
rewritten for `i + 1`; in every state with `i ≥ n - 3` it changes neither the
index nor the transform; it raises nothing in either case. -/
theorem nextSlide_saturating (p : Page) (s : State) :
    (p.hasCarousel = true → 0 ≤ s.currentIndex →
      s.currentIndex < (p.cards.length : Int) - 3 →
      ∃ w, p.cards.head? = some w ∧
        nextSlide p s =
          { state := { currentIndex := s.currentIndex + 1,
                       transform :=
                         some (translateX ((s.currentIndex + 1) * ((w : Int) + 20))) },
            error := none }) ∧
    (¬ s.currentIndex < (p.cards.length : Int) - 3 →
      nextSlide p s = { state := s, error := none }) := by
  refine ⟨fun hc h0 hlt => ?_, nextSlide_of_not_lt p s⟩
  obtain ⟨w, hw⟩ := head?_of_length_pos p (by omega)
  exact ⟨w, hw, nextSlide_of_lt p s w hc hw hlt⟩

theorem nextSlide_saturating_witness :
    (∃ w, (Page.mk true (List.replicate 7 100)).cards.head? = some w ∧
      nextSlide ⟨true, List.replicate 7 100⟩ ⟨3, some "translateX(-360px)"⟩ =
        { state := { currentIndex := 3 + 1,
                     transform := some (translateX ((3 + 1) * ((w : Int) + 20))) },
          error := none }) ∧
    nextSlide ⟨true, List.replicate 7 100⟩ ⟨4, some "translateX(-480px)"⟩ =
      { state := ⟨4, some "translateX(-480px)"⟩, error := none } :=
  ⟨(nextSlide_saturating ⟨true, List.replicate 7 100⟩ ⟨3, some "translateX(-360px)"⟩).1
      rfl (by decide) (by decide),
   (nextSlide_saturating ⟨true, List.replicate 7 100⟩ ⟨4, some "translateX(-480px)"⟩).2
      (by decide)⟩

/-- C6: `prevSlide` is a saturating decrement. With a container, in a state of
the data model (`0 ≤ i ≤ max 0 (n - 3)`) with `i > 0` it ends with index
`i - 1` and the transform rewritten for `i - 1`; in every state with `i = 0` it
changes neither the index nor the transform; it raises nothing in either
case. -/
theorem prevSlide_saturating (p : Page) (s : State) :
    (p.hasCarousel = true → IndexInBounds p s → 0 < s.currentIndex →
      ∃ w, p.cards.head? = some w ∧
        prevSlide p s =
          { state := { currentIndex := s.currentIndex - 1,
                       transform :=
                         some (translateX ((s.currentIndex - 1) * ((w : Int) + 20))) },
            error := none }) ∧
    (s.currentIndex = 0 → prevSlide p s = { state := s, error := none }) := by
  refine ⟨fun hc hb hpos => ?_, fun h0 => prevSlide_of_not_pos p s (by omega)⟩
  unfold IndexInBounds visibleCards at hb
  obtain ⟨w, hw⟩ := head?_of_length_pos p (by omega)
  exact ⟨w, hw, prevSlide_of_pos p s w hc hw hpos⟩

theorem prevSlide_saturating_witness :
    (∃ w, (Page.mk true (List.replicate 7 100)).cards.head? = some w ∧
      prevSlide ⟨true, List.replicate 7 100⟩ ⟨3, some "translateX(-360px)"⟩ =
        { state := { currentIndex := 3 - 1,
                     transform := some (translateX ((3 - 1) * ((w : Int) + 20))) },
          error := none }) ∧
    prevSlide ⟨true, List.replicate 7 100⟩ ⟨0, none⟩ =
      { state := ⟨0, none⟩, error := none } :=
  ⟨(prevSlide_saturating ⟨true, List.replicate 7 100⟩ ⟨3, some "translateX(-360px)"⟩).1
      rfl (by decide) (by decide),
   (prevSlide_saturating ⟨true, List.replicate 7 100⟩ ⟨0, none⟩).2 rfl⟩

/-- C7: in every state with `currentIndex < n - 3` the timer tick ends exactly
as one `nextSlide` call does: same index, same transform, same error status. -/
theorem tick_eq_nextSlide_inside (p : Page) (s : State)
    (h : s.currentIndex < (p.cards.length : Int) - 3) :
    tick p s = nextSlide p s := by
  have h' : s.currentIndex < (p.cards.length : Int) - visibleCards := h
  rw [tick, if_pos h']

theorem tick_eq_nextSlide_inside_witness :
    tick ⟨true, List.replicate 7 100⟩ ⟨1, some "translateX(-120px)"⟩ =
      nextSlide ⟨true, List.replicate 7 100⟩ ⟨1, some "translateX(-120px)"⟩ :=
  tick_eq_nextSlide_inside ⟨true, List.replicate 7 100⟩ ⟨1, some "translateX(-120px)"⟩
    (by decide)

/-! ## Repeated calls -/

/-- C8: with `n ≥ 3` cards, `k` consecutive `nextSlide` calls from the initial
state end with `currentIndex = min k (n - 3)`. -/
theorem nextSlide_repeat_clamps (p : Page) (hn : 3 ≤ p.cards.length) (k : Nat) :
    (run p initial (List.replicate k Op.next)).currentIndex =
      min (k : Int) ((p.cards.length : Int) - 3) := by
  induction k with
  | zero =>
    simp only [List.replicate, run_nil, initial]
    omega
  | succ k ih =>
    rw [run_replicate_succ]
    simp only [step]
    rw [nextSlide_currentIndex, ih]
    split <;> omega

theorem nextSlide_repeat_clamps_witness :
    (run ⟨true, List.replicate 7 100⟩ initial (List.replicate 4 Op.next)).currentIndex =
      min ((4 : Nat) : Int) (((List.replicate 7 100).length : Int) - 3) ∧
    (run ⟨true, List.replicate 7 100⟩ initial (List.replicate 5 Op.next)).currentIndex =
      min ((5 : Nat) : Int) (((List.replicate 7 100).length : Int) - 3) ∧
    min ((5 : Nat) : Int) (((List.replicate 7 100).length : Int) - 3) = 4 :=
  ⟨nextSlide_repeat_clamps ⟨true, List.replicate 7 100⟩ (by decide) 4,
   nextSlide_repeat_clamps ⟨true, List.replicate 7 100⟩ (by decide) 5, by decide⟩

/-- C9: with `n ≥ 3` cards, `k` consecutive timer ticks from the initial state
end with `currentIndex = k mod (n - 2)`. -/
theorem tick_repeat_cycles (p : Page) (hn : 3 ≤ p.cards.length) (k : Nat) :
    (run p initial (List.replicate k Op.timer)).currentIndex =
      (k : Int) % ((p.cards.length : Int) - 2) := by
  rw [run_timer_currentIndex p hn k]
  have h2 : (p.cards.length : Int) - 2 = ((p.cards.length - 2 : Nat) : Int) := by omega
  rw [h2, Int.natCast_mod]

theorem tick_repeat_cycles_witness :
    (List.map
      (fun k => (run ⟨true, List.replicate 7 100⟩ initial
        (List.replicate k Op.timer)).currentIndex) [1, 2, 3, 4, 5] = [1, 2, 3, 4, 0]) ∧
    (run ⟨true, List.replicate 7 100⟩ initial (List.replicate 5 Op.timer)).currentIndex =
      ((5 : Nat) : Int) % (((List.replicate 7 100).length : Int) - 2) :=
  ⟨by decide, tick_repeat_cycles ⟨true, List.replicate 7 100⟩ (by decide) 5⟩

/-! ## The empty card collection -/

/-- C10: on a page with a container and no cards, the first timer tick raises a
`TypeError` from `updateCarousel` (reading `offsetWidth` of the missing first
card) and leaves the transform unwritten; `updateCarousel` is not skipped. -/
theorem tick_empty_collection_raises :
    tick ⟨true, []⟩ initial = { state := initial, error := some JsError.typeError } ∧
    updateCarousel ⟨true, []⟩ initial =
      { state := initial, error := some JsError.typeError } := by
  decide

/-! ## Manual steps -/

/-- C13: in every state reached from the initial state, a guard of `nextSlide`
or `prevSlide` that holds implies `n ≥ 4`; so with a container neither raises
an error, and with fewer than 4 cards both return the state untouched without
calling `updateCarousel`, while the timer tick is exactly the call
`updateCarousel` at index `0`, which raises on an empty collection. -/
theorem manual_steps_avoid_empty_crash (p : Page) (ops : List Op) :
    ((run p initial ops).currentIndex < (p.cards.length : Int) - 3 → 4 ≤ p.cards.length) ∧
    (0 < (run p initial ops).currentIndex → 4 ≤ p.cards.length) ∧
    (p.hasCarousel = true →
      (nextSlide p (run p initial ops)).error = none ∧
      (prevSlide p (run p initial ops)).error = none) ∧
    (p.cards.length < 4 →
      nextSlide p (run p initial ops) = { state := run p initial ops, error := none } ∧
      prevSlide p (run p initial ops) = { state := run p initial ops, error := none } ∧
      tick p (run p initial ops) =
        updateCarousel p { run p initial ops with currentIndex := 0 }) ∧
    (p.cards = [] → (tick p (run p initial ops)).error = some JsError.typeError) := by
  have hb := run_indexInBounds p ops initial (initial_indexInBounds p)
  unfold IndexInBounds visibleCards at hb
  obtain ⟨hb0, hb1⟩ := hb
  have hnext : p.cards.length < 4 →
      ¬ (run p initial ops).currentIndex < (p.cards.length : Int) - 3 := by
    intro h; omega
  have hprev : p.cards.length < 4 → ¬ 0 < (run p initial ops).currentIndex := by
    intro h; omega
  have htick : p.cards.length < 4 →
      tick p (run p initial ops) =
        updateCarousel p { run p initial ops with currentIndex := 0 } := by
    intro h
    have h' : ¬ (run p initial ops).currentIndex < (p.cards.length : Int) - visibleCards :=
      hnext h
    rw [tick, if_neg h']
  refine ⟨fun h => by omega, fun h => by omega, fun hc => ⟨?_, ?_⟩,
    fun h => ⟨nextSlide_of_not_lt p _ (hnext h), prevSlide_of_not_pos p _ (hprev h), htick h⟩,
    fun he => ?_⟩
  · by_cases h : (run p initial ops).currentIndex < (p.cards.length : Int) - 3
    · obtain ⟨w, hw⟩ := head?_of_length_pos p (by omega)
      rw [nextSlide_of_lt p _ w hc hw h]
    · rw [nextSlide_of_not_lt p _ h]
  · by_cases h : 0 < (run p initial ops).currentIndex
    · obtain ⟨w, hw⟩ := head?_of_length_pos p (by omega)
      rw [prevSlide_of_pos p _ w hc hw h]
    · rw [prevSlide_of_not_pos p _ h]
  · have hlen : p.cards.length < 4 := by rw [he]; decide
    rw [htick hlen, updateCarousel_of_empty p _ he]

theorem manual_steps_avoid_empty_crash_witness :
    ((nextSlide ⟨true, List.replicate 5 100⟩
        (run ⟨true, List.replicate 5 100⟩ initial [Op.timer, Op.next, Op.prev])).error = none ∧
      (prevSlide ⟨true, List.replicate 5 100⟩
        (run ⟨true, List.replicate 5 100⟩ initial [Op.timer, Op.next, Op.prev])).error = none) ∧
    (tick ⟨true, []⟩ (run ⟨true, []⟩ initial [Op.next, Op.prev])).error =
      some JsError.typeError :=
  ⟨(manual_steps_avoid_empty_crash ⟨true, List.replicate 5 100⟩
      [Op.timer, Op.next, Op.prev]).2.2.1 rfl,
   (manual_steps_avoid_empty_crash ⟨true, []⟩ [Op.next, Op.prev]).2.2.2.2 rfl⟩

/-- C14: with a container, a first card of width `w` and an index `i ≥ 0`
(the data model's index), accepted steps undo each other. In a state whose
transform is the string written for `i`, `prevSlide` after `nextSlide` ends in
the very same state when `i < n - 3`, and `nextSlide` after `prevSlide` does
when `0 < i ≤ n - 3`. Counting a transform not written yet as offset `0` (then
`i = 0`), the round trip ends with the same index and the offset
`i * (w + 20)` written, which is the same offset. No call raises. -/
theorem steps_inverse (p : Page) (w : Nat) (rest : List Nat) (s : State)
    (hc : p.hasCarousel = true) (hw : p.cards = w :: rest) (h0 : 0 ≤ s.currentIndex) :
    (s.transform =
        some ("translateX(-" ++ Nat.repr (s.currentIndex.toNat * (w + 20)) ++ "px)") →
      (s.currentIndex < (p.cards.length : Int) - 3 →
        (nextSlide p s).error = none ∧
        prevSlide p (nextSlide p s).state = { state := s, error := none }) ∧
      (0 < s.currentIndex → s.currentIndex ≤ (p.cards.length : Int) - 3 →
        (prevSlide p s).error = none ∧
        nextSlide p (prevSlide p s).state = { state := s, error := none })) ∧
    ((s.transform = none ∧ s.currentIndex = 0) ∨
      s.transform =
        some ("translateX(-" ++ Nat.repr (s.currentIndex.toNat * (w + 20)) ++ "px)") →
      (s.currentIndex < (p.cards.length : Int) - 3 →
        (nextSlide p s).error = none ∧
        prevSlide p (nextSlide p s).state =
          { state := { currentIndex := s.currentIndex,
                       transform := some ("translateX(-" ++
                         Nat.repr (s.currentIndex.toNat * (w + 20)) ++ "px)") },
            error := none }) ∧
      (0 < s.currentIndex → s.currentIndex ≤ (p.cards.length : Int) - 3 →
        (prevSlide p s).error = none ∧
        nextSlide p (prevSlide p s).state =
          { state := { currentIndex := s.currentIndex,
                       transform := some ("translateX(-" ++
                         Nat.repr (s.currentIndex.toNat * (w + 20)) ++ "px)") },
            error := none })) := by
  have hh : p.cards.head? = some w := by rw [hw]; rfl
  refine ⟨fun ht => ⟨fun hlt => ?_, fun hpos hle => ?_⟩,
    fun _ => ⟨fun hlt => prevSlide_nextSlide_roundtrip p w s hc hh h0 hlt,
      fun hpos hle => nextSlide_prevSlide_roundtrip p w s hc hh hpos hle⟩⟩
  · have h := prevSlide_nextSlide_roundtrip p w s hc hh h0 hlt
    rw [← ht] at h
    exact h
  · have h := nextSlide_prevSlide_roundtrip p w s hc hh hpos hle
    rw [← ht] at h
    exact h

theorem steps_inverse_witness :
    (prevSlide ⟨true, List.replicate 7 100⟩
        (nextSlide ⟨true, List.replicate 7 100⟩ ⟨2, some "translateX(-240px)"⟩).state =
      { state := ⟨2, some "translateX(-240px)"⟩, error := none }) ∧
    (nextSlide ⟨true, List.replicate 7 100⟩
        (prevSlide ⟨true, List.replicate 7 100⟩ ⟨4, some "translateX(-480px)"⟩).state =
      { state := ⟨4, some "translateX(-480px)"⟩, error := none }) ∧
    (prevSlide ⟨true, List.replicate 7 100⟩
        (nextSlide ⟨true, List.replicate 7 100⟩ initial).state =
      { state := ⟨0, some "translateX(-0px)"⟩, error := none }) ∧
    (nextSlide ⟨true, List.replicate 7 100⟩ ⟨2, some "translateX(-240px)"⟩).state =
      ⟨3, some "translateX(-360px)"⟩ :=
  ⟨(((steps_inverse ⟨true, List.replicate 7 100⟩ 100 (List.replicate 6 100)
      ⟨2, some "translateX(-240px)"⟩ rfl rfl (by decide)).1 (by decide)).1 (by decide)).2,
   (((steps_inverse ⟨true, List.replicate 7 100⟩ 100 (List.replicate 6 100)
      ⟨4, some "translateX(-480px)"⟩ rfl rfl (by decide)).1 (by decide)).2
      (by decide) (by decide)).2,
   (((steps_inverse ⟨true, List.replicate 7 100⟩ 100 (List.replicate 6 100)
      initial rfl rfl (by decide)).2 (Or.inl ⟨rfl, rfl⟩)).1 (by decide)).2,
   by decide⟩

end Carousel

namespace AnchorScroller

/-! ## The click listener -/

theorem onAnchorClick_of_null (d : Dom) (href : String) (s : Carousel.State)
    (h : d.querySelector href = QueryResult.null) :
    onAnchorClick d href s =
      { carousel := s, effects := [Effect.preventDefault],
        error := some Carousel.JsError.typeError } := by
  simp [onAnchorClick, h]

theorem onAnchorClick_of_element (d : Dom) (href : String) (s : Carousel.State)
    (target : Element) (h : d.querySelector href = QueryResult.element target) :
    onAnchorClick d href s =
      { carousel := s,
        effects := [Effect.preventDefault, Effect.scrollIntoView target "smooth"],
        error := none } := by
  simp [onAnchorClick, h]

/-- C11: in a document where no element has the id `missing-id`, a click on a
link with `href="#missing-id"` calls `preventDefault` and requests no scroll,
and a `TypeError` escapes the listener (`scrollIntoView` is called on the
`null` that `querySelector` returned). -/
theorem onAnchorClick_missing_target_raises :
    (domOfIds ["section1", "section2"]).querySelector "#missing-id" = QueryResult.null ∧
    onAnchorClick (domOfIds ["section1", "section2"]) "#missing-id" Carousel.initial =
      { carousel := Carousel.initial, effects := [Effect.preventDefault],
        error := some Carousel.JsError.typeError } := by
  decide

/-- C12: when the `href` of the link selects an element `target`, one click
calls `preventDefault` once, then `scrollIntoView` with behavior `"smooth"`
once, on `target` and on no other element, raises nothing and leaves the
carousel state as it was. -/
theorem onAnchorClick_existing_target (d : Dom) (href : String) (s : Carousel.State)
    (target : Element) (h : d.querySelector href = QueryResult.element target) :
    (onAnchorClick d href s).effects =
      [Effect.preventDefault, Effect.scrollIntoView target "smooth"] ∧
    (onAnchorClick d href s).effects.count Effect.preventDefault = 1 ∧
    (onAnchorClick d href s).effects.count (Effect.scrollIntoView target "smooth") = 1 ∧
    (∀ t b, Effect.scrollIntoView t b ∈ (onAnchorClick d href s).effects →
      t = target ∧ b = "smooth") ∧
    (onAnchorClick d href s).error = none ∧
    (onAnchorClick d href s).carousel = s := by
  rw [onAnchorClick_of_element d href s target h]
  refine ⟨rfl, by simp, by simp, ?_, rfl, rfl⟩
  intro t b hmem
  simpa using hmem

theorem onAnchorClick_existing_target_witness :
    (onAnchorClick (domOfIds ["section1", "section2"]) "#section2"
      ⟨2, some "translateX(-240px)"⟩).effects =
      [Effect.preventDefault, Effect.scrollIntoView 1 "smooth"] ∧
    (onAnchorClick (domOfIds ["section1", "section2"]) "#section2"
      ⟨2, some "translateX(-240px)"⟩).carousel = ⟨2, some "translateX(-240px)"⟩ :=
  ⟨(onAnchorClick_existing_target (domOfIds ["section1", "section2"]) "#section2"
      ⟨2, some "translateX(-240px)"⟩ 1 (by decide)).1,
   (onAnchorClick_existing_target (domOfIds ["section1", "section2"]) "#section2"
      ⟨2, some "translateX(-240px)"⟩ 1 (by decide)).2.2.2.2.2⟩

end AnchorScroller
